import Mathlib

/-!
Shallow embedding of the GPU frame-rendering core of the VulkanTutorial
repository (src/main.cpp, src/vku.cpp), together with theorems settling the
frozen claims about its specification.

The file models two application variants found in src/main.cpp:
  * `HelloTriangle` — the rasterization-only variant
    (class `HelloTriangleApplication`, first copy, lines 1-1590 of main.cpp);
  * `RayTrace` — the ray-tracing variant
    (class `HelloTriangleApplication`, last copy, lines 1960-4769 of main.cpp).

Vulkan handles are modelled as abstract numeric identifiers; the GPU is an
environment that nondeterministically completes previously submitted work
(supplied as per-frame inputs).  Host-visible buffer memory is a function
from image index to abstract contents.  Fallible calls return their
`VkResult`; a thrown C++ exception is a `fatal` step status (the
process-level catch in `main` turns it into exit code 1).
-/

namespace VulkanTutorial

/-- Source constant `MaxFramesInFlight` (main.cpp lines 30 and 2010): the
number of frame slots, i.e. the bound on frames in flight. -/
def MaxFramesInFlight : Nat := 2

/-- The subset of `VkResult` values the render loop distinguishes.  Every
error code other than `VK_ERROR_OUT_OF_DATE_KHR` and `VK_SUBOPTIMAL_KHR`
is collapsed into `errorOther`, since the code treats all of them alike
(throw). -/
inductive VkResult where
  | success
  | suboptimalKhr
  | errorOutOfDateKhr
  | errorOther
deriving DecidableEq, Repr

/-! ## Surface format selection (main.cpp lines 491-508 and 2662-2679)

Both copies of `choose_vk_swap_surface_format` are textually identical; one
Lean definition embeds both.  `VkSurfaceFormatKHR` carries exactly the two
fields the C++ struct has; the numeric values of the format/color-space
enumerants are the Vulkan header values. -/

structure VkSurfaceFormatKHR where
  format : Nat
  colorSpace : Nat
deriving DecidableEq, Repr

def VK_FORMAT_UNDEFINED : Nat := 0
def VK_FORMAT_B8G8R8A8_UNORM : Nat := 44
def VK_COLOR_SPACE_SRGB_NONLINEAR_KHR : Nat := 0

/-- The format the selector hand-builds and prefers:
`{ VK_FORMAT_B8G8R8A8_UNORM, VK_COLOR_SPACE_SRGB_NONLINEAR_KHR }`. -/
def preferredSurfaceFormat : VkSurfaceFormatKHR :=
  { format := VK_FORMAT_B8G8R8A8_UNORM
    colorSpace := VK_COLOR_SPACE_SRGB_NONLINEAR_KHR }

/-- The scan condition of the `for` loop in `choose_vk_swap_surface_format`
(main.cpp 501): `format.format == VK_FORMAT_B8G8R8A8_UNORM &&
format.colorSpace == VK_COLOR_SPACE_SRGB_NONLINEAR_KHR`. -/
def isPreferredSurfaceFormat (f : VkSurfaceFormatKHR) : Bool :=
  f.format = VK_FORMAT_B8G8R8A8_UNORM ∧ f.colorSpace = VK_COLOR_SPACE_SRGB_NONLINEAR_KHR

/-- Embeds `choose_vk_swap_surface_format` (main.cpp 491-508 / 2662-2679).
The early return for a single `VK_FORMAT_UNDEFINED` entry, the linear scan
for the preferred pair, and the `available_formats[0]` fallback (guarded in
the source by `assert(!available_formats.empty())`, modelled by `head?`
returning `none` on the empty list) are translated in order. -/
def choose_vk_swap_surface_format (available_formats : List VkSurfaceFormatKHR) :
    Option VkSurfaceFormatKHR :=
  if available_formats.length = 1 ∧
      (available_formats.headD preferredSurfaceFormat).format = VK_FORMAT_UNDEFINED then
    some preferredSurfaceFormat
  else
    match available_formats.find? isPreferredSurfaceFormat with
    | some f => some f
    | none => available_formats.head?

/-! ## Memory type selection (vku.cpp lines 7-23, main.cpp lines 1033-1048)

`vku_find_memory_type` (vku.cpp) and the member `find_vk_memory_type`
(main.cpp) have the same body; one Lean definition embeds both.  The
device-reported table `VkPhysicalDeviceMemoryProperties` is modelled by the
list of its first `memoryTypeCount` entries' `propertyFlags`. -/

structure VkMemoryType where
  propertyFlags : Nat
deriving DecidableEq, Repr

structure VkPhysicalDeviceMemoryProperties where
  memoryTypes : List VkMemoryType
deriving DecidableEq, Repr

/-- The `for (i = 0; i < memoryTypeCount; ++i)` loop of
`vku_find_memory_type`, with `i` the absolute index of the head of the
remaining list. -/
def vku_find_memory_type_loop (type_filter properties : Nat) :
    Nat → List VkMemoryType → Except String Nat
  | _, [] => .error "Failed to find suitable Vulkan memory type"
  | i, mt :: rest =>
    if type_filter &&& (1 <<< i) ≠ 0 ∧ mt.propertyFlags &&& properties = properties then
      .ok i
    else
      vku_find_memory_type_loop type_filter properties (i + 1) rest

/-- Embeds `vku_find_memory_type` (vku.cpp 7-23): scan the reported memory
types in index order, return the first index whose bit is set in
`type_filter` and whose property flags contain `properties`; throw
(`Except.error`) if the loop finishes without a match. -/
def vku_find_memory_type (physical_mem_properties : VkPhysicalDeviceMemoryProperties)
    (type_filter properties : Nat) : Except String Nat :=
  vku_find_memory_type_loop type_filter properties 0 physical_mem_properties.memoryTypes

/-- Specification predicate for claim C8: index `i` is suitable for
`type_filter`/`properties` in the reported table. -/
def SuitableMemoryType (type_filter properties : Nat)
    (mts : List VkMemoryType) (i : Nat) : Prop :=
  i < mts.length ∧ Nat.testBit type_filter i ∧
    (mts.getD i ⟨0⟩).propertyFlags &&& properties = properties

instance (type_filter properties : Nat) (mts : List VkMemoryType) (i : Nat) :
    Decidable (SuitableMemoryType type_filter properties mts i) := by
  unfold SuitableMemoryType; infer_instance

/-- Embeds the `try`/`catch` wrapper of `main` (main.cpp 1565-1590,
4747-4769): `exit_code` starts at 1 and becomes 0 only if `app.run()`
returns without throwing. -/
def main_exit_code {α : Type} (run_result : Except String α) : Nat :=
  match run_result with
  | .ok _ => 0
  | .error _ => 1

/-! ## Synchronization objects (main.cpp lines 1321-1343 and 4332-4354)

Both copies of `create_vk_sync_objects` are identical.  A fence is modelled
by its signaled/unsignaled state; `vkCreateFence` yields the initial state
dictated by the create-info flags. -/

def VK_FENCE_CREATE_SIGNALED_BIT : Nat := 1

structure VkFenceCreateInfo where
  flags : Nat
deriving DecidableEq, Repr

/-- Initial signaled state of a fence created by `vkCreateFence`: signaled
iff `VK_FENCE_CREATE_SIGNALED_BIT` is set in the create-info flags. -/
def vkCreateFence (create_info : VkFenceCreateInfo) : Bool :=
  create_info.flags &&& VK_FENCE_CREATE_SIGNALED_BIT ≠ 0

/-- Embeds `create_vk_sync_objects` (main.cpp 1321-1343 / 4332-4354), fence
part: `MaxFramesInFlight` fences, each created with
`flags = VK_FENCE_CREATE_SIGNALED_BIT`.  (The two semaphore vectors carry
no host-observable state and are kept implicit.) -/
def create_vk_sync_objects_fences : List Bool :=
  List.replicate MaxFramesInFlight
    (vkCreateFence { flags := VK_FENCE_CREATE_SIGNALED_BIT })

/-! ## Frame scheduler state (rasterization variant)

`draw_frame` / `main_loop` of the first variant (main.cpp 1345-1420).
The host-observable synchronization state consists of:
  * the signaled state of each frame slot's fence,
  * the queue of submitted-but-unfenced command buffers, in submission
    order; each entry records the frame slot whose fence that submission
    signals (`vkQueueSubmit(..., m_in_flight_fences[current_frame])`),
  * the `m_framebuffer_resized` flag set by the GLFW resize callback,
  * the per-image uniform-buffer memory contents (abstract values).
GPU progress is modelled by completing a host-chosen number of submissions
from the front of the queue (same-queue submissions complete in order);
completing a submission signals its fence. -/

structure RenderState where
  fenceSignaled : Nat → Bool
  outstanding : List Nat
  framebufferResized : Bool
  uniformBuffers : Nat → Nat

/-- Per-frame environment input: how many outstanding submissions the GPU
finishes while the host sits in `vkWaitForFences`, the result and image
index produced by `vkAcquireNextImageKHR`, the uniform value computed this
frame, and the result of `vkQueuePresentKHR`. -/
structure FrameInput where
  completeCount : Nat
  acquireResult : VkResult
  imageIndex : Nat
  uboValue : Nat
  presentResult : VkResult

/-- What the host did during one `draw_frame` call. -/
structure FrameOutput where
  recreatedSwapChain : Bool
  fenceResets : List Nat
  uniformWriteIndex : Option Nat
  submittedCommandBuffer : Option Nat
  submitSignalsFence : Option Nat
  presentedImage : Option Nat

/-- The empty output: nothing happened yet. -/
def FrameOutput.none : FrameOutput :=
  { recreatedSwapChain := false, fenceResets := [], uniformWriteIndex := .none
    submittedCommandBuffer := .none, submitSignalsFence := .none, presentedImage := .none }

/-- How a `draw_frame` call ended: the fence wait never returns under this
input (`blocked`), a `std::runtime_error` was thrown (`fatal`), or control
returned to `main_loop` (`ok`). -/
inductive StepStatus where
  | blocked
  | fatal
  | ok
deriving DecidableEq, Repr

/-- GPU progress: the first `k` submissions of the queue complete; each
completed submission signals the fence of its frame slot. -/
def gpuComplete (s : RenderState) (k : Nat) : RenderState :=
  { s with
    fenceSignaled := fun i => s.fenceSignaled i || decide (i ∈ s.outstanding.take k)
    outstanding := s.outstanding.drop k }

/-- Synchronization effect of `vkDeviceWaitIdle` (main.cpp 1474): all
outstanding submissions complete, signaling their fences. -/
def deviceWaitIdle (s : RenderState) : RenderState :=
  { s with
    fenceSignaled := fun i => s.fenceSignaled i || decide (i ∈ s.outstanding)
    outstanding := [] }

/-- Embeds `update_vk_uniform_buffer` (main.cpp 1422-1454) restricted to its
memory effect: map `m_uniform_buffers_memory[current_image]`, `memcpy` the
freshly computed `ubo` into it, unmap.  Only the entry at `current_image`
changes. -/
def update_vk_uniform_buffer (mem : Nat → Nat) (current_image : Nat) (ubo : Nat) :
    Nat → Nat :=
  Function.update mem current_image ubo

/-- Synchronization/memory effect of `recreate_vk_swap_chain` as called from
the rasterization `draw_frame` (main.cpp 1456-1484): after the optional
minimized-wait loop it calls `vkDeviceWaitIdle` and rebuilds only
swapchain-dependent objects, which carry no state in `RenderState`.
(The event-blocking behaviour and the object lifecycle of recreation are
modelled separately below for claims C3 and C4.) -/
def recreate_vk_swap_chain_sync (s : RenderState) : RenderState :=
  deviceWaitIdle s

/-- Embeds `draw_frame` of the rasterization variant (main.cpp 1359-1420).
Control flow, in source order: wait on slot `current_frame`'s fence;
acquire (out-of-date → recreate and return; other error → throw); reset
the slot's fence; update image `image_index`'s uniform buffer; submit
`m_command_buffers[image_index]` waiting on the slot's image-available
semaphore and signaling the slot's render-finished semaphore and fence;
present image `image_index`; on out-of-date/suboptimal present result or a
pending resize flag, clear the flag and recreate; other present error →
throw. -/
def draw_frame (s : RenderState) (current_frame : Nat) (inp : FrameInput) :
    RenderState × FrameOutput × StepStatus :=
  let s := gpuComplete s inp.completeCount
  if s.fenceSignaled current_frame = false then
    (s, FrameOutput.none, .blocked)
  else if inp.acquireResult = .errorOutOfDateKhr then
    (recreate_vk_swap_chain_sync s,
      { FrameOutput.none with recreatedSwapChain := true }, .ok)
  else if inp.acquireResult = .errorOther then
    (s, FrameOutput.none, .fatal)
  else
    let s := { s with fenceSignaled := Function.update s.fenceSignaled current_frame false }
    let s := { s with
      uniformBuffers := update_vk_uniform_buffer s.uniformBuffers inp.imageIndex inp.uboValue }
    let s := { s with outstanding := s.outstanding ++ [current_frame] }
    let out : FrameOutput :=
      { recreatedSwapChain := false
        fenceResets := [current_frame]
        uniformWriteIndex := some inp.imageIndex
        submittedCommandBuffer := some inp.imageIndex
        submitSignalsFence := some current_frame
        presentedImage := some inp.imageIndex }
    if inp.presentResult = .errorOutOfDateKhr ∨ inp.presentResult = .suboptimalKhr ∨
        s.framebufferResized then
      (recreate_vk_swap_chain_sync { s with framebufferResized := false },
        { out with recreatedSwapChain := true }, .ok)
    else if inp.presentResult ≠ .success then
      (s, out, .fatal)
    else
      (s, out, .ok)

/-- Initial synchronization state after `create_vk_sync_objects`: the fences
of the `MaxFramesInFlight` slots are as `vkCreateFence` left them, no work
has been submitted, no resize is pending. -/
def init_render_state (ubo0 : Nat → Nat) : RenderState :=
  { fenceSignaled := fun i => create_vk_sync_objects_fences.getD i false
    outstanding := []
    framebufferResized := false
    uniformBuffers := ubo0 }

/-- Embeds `main_loop` (main.cpp 1345-1357): starting from `current_frame =
0`, repeatedly poll events (which may set the resize flag) and call
`draw_frame`, advancing `current_frame = (current_frame + 1) %
MaxFramesInFlight`.  Returns the list of states reached, stopping early if
a frame blocks or throws.  A `Bool` per iteration says whether event
polling delivered a resize callback. -/
def main_loop_run (s : RenderState) (current_frame : Nat) :
    List (Bool × FrameInput) → List RenderState
  | [] => [s]
  | (resizeEvent, inp) :: rest =>
    s :: (
      match draw_frame { s with framebufferResized := s.framebufferResized || resizeEvent }
          current_frame inp with
      | (s', _, .ok) => main_loop_run s' ((current_frame + 1) % MaxFramesInFlight) rest
      | (s', _, .blocked) => [s']
      | (s', _, .fatal) => [s'])

/-! ## Frame scheduler state (ray-tracing variant)

`draw_frame` of the last variant (main.cpp 4409-4562).  Additional state:
the cached window size `m_window_width`/`m_window_height`, the swapchain
image views (abstract handles per image index, replaced wholesale by
recreation), and the ray-tracing descriptor set's output-image binding
(binding 1), the one descriptor mutated outside setup. -/

/-- Source enumeration `RenderingMode` (main.cpp 2012-2016). -/
inductive RenderingMode where
  | rasterization
  | rayTracing
deriving DecidableEq, Repr

/-- Source constant `CurrentRenderingMode` (main.cpp 2019). -/
def CurrentRenderingMode : RenderingMode := .rayTracing

inductive VkImageLayout where
  | presentSrcKhr
  | general
deriving DecidableEq, Repr

/-- One event of the per-frame ray-tracing recording sequence (main.cpp
4450-4526), in the order the host performs them.  `bindRenderTarget` is the
descriptor rewrite done by `update_vk_rt_render_target`; the others are
commands recorded into the command buffer.  `traceRays` carries the
output-image binding in effect when `vkCmdTraceRaysNV` is recorded. -/
inductive RtRecordEvent where
  | imageBarrier (image : Nat) (oldLayout newLayout : VkImageLayout)
  | bindRenderTarget (imageView : Nat)
  | beginRenderPass (imageIndex : Nat)
  | bindPipeline
  | bindDescriptorSets
  | traceRays (outputImageBinding : Option Nat)
  | endRenderPass
deriving DecidableEq, Repr

structure RtState where
  fenceSignaled : Nat → Bool
  outstanding : List Nat
  windowWidth : Nat
  windowHeight : Nat
  framebufferResized : Bool
  swapChainImageViews : Nat → Nat
  rtOutputBinding : Option Nat
  uniformBuffers : Nat → Nat

/-- Per-frame environment input of the ray-tracing `draw_frame`.
`framebufferSize` is what `glfwGetFramebufferSize` reports if called this
frame; `newImageViews` are the view handles a swapchain recreation would
create this frame. -/
structure RtFrameInput where
  completeCount : Nat
  framebufferSize : Nat × Nat
  newImageViews : Nat → Nat
  acquireResult : VkResult
  imageIndex : Nat
  uboValue : Nat
  presentResult : VkResult

/-- Output of one ray-tracing `draw_frame` call: the common bookkeeping
plus the recording sequence of the frame (empty when no command buffer was
recorded). -/
structure RtFrameOutput where
  base : FrameOutput
  recordedEvents : List RtRecordEvent

/-- GPU progress for the ray-tracing variant, as `gpuComplete`. -/
def rtGpuComplete (s : RtState) (k : Nat) : RtState :=
  { s with
    fenceSignaled := fun i => s.fenceSignaled i || decide (i ∈ s.outstanding.take k)
    outstanding := s.outstanding.drop k }

/-- Synchronization/resource effect of the ray-tracing
`recreate_vk_swap_chain` (main.cpp 4605-4624): `vkDeviceWaitIdle` completes
all outstanding work (signaling the fences), then the swapchain-dependent
objects are torn down and rebuilt — observable here as the image-view
handles being replaced.  The descriptor set, its output-image binding, the
geometry buffers and the acceleration structures are not touched.
(The object lifecycle is modelled operation-by-operation below for C4.) -/
def rt_recreate_vk_swap_chain_sync (s : RtState) (newViews : Nat → Nat) : RtState :=
  { s with
    fenceSignaled := fun i => s.fenceSignaled i || decide (i ∈ s.outstanding)
    outstanding := []
    swapChainImageViews := newViews }

/-- Embeds `update_vk_rt_render_target` (main.cpp 4592-4603): rewrite
binding 1 of `m_rt_descriptor_set` to reference `target_image_view`. -/
def update_vk_rt_render_target (s : RtState) (target_image_view : Nat) : RtState :=
  { s with rtOutputBinding := some target_image_view }

/-- Embeds the ray-tracing recording block of `draw_frame` (main.cpp
4445-4527), for the just-acquired index `image_index`: begin the command
buffer for `image_index`; record an image barrier transitioning
`m_swap_chain_images[image_index]` from `VK_IMAGE_LAYOUT_PRESENT_SRC_KHR`
to `VK_IMAGE_LAYOUT_GENERAL`; call
`update_vk_rt_render_target(m_swap_chain_image_views[image_index])`; begin
the render pass on `m_swap_chain_framebuffers[image_index]`; bind the
ray-tracing pipeline and descriptor set; record `vkCmdTraceRaysNV`; end the
render pass; end the command buffer.  Returns the updated state and the
event sequence. -/
def rt_record_command_buffer (s : RtState) (image_index : Nat) :
    RtState × List RtRecordEvent :=
  let view := s.swapChainImageViews image_index
  let s := update_vk_rt_render_target s view
  (s,
    [ .imageBarrier image_index .presentSrcKhr .general
    , .bindRenderTarget view
    , .beginRenderPass image_index
    , .bindPipeline
    , .bindDescriptorSets
    , .traceRays s.rtOutputBinding
    , .endRenderPass ])

/-- The acquire-onward part of the ray-tracing `draw_frame` (main.cpp
4423-4561), shared by the two paths that reach `vkAcquireNextImageKHR`:
acquire (out-of-date → recreate and return; other error → throw); reset
slot `current_frame`'s fence; update image `image_index`'s uniform buffer;
if `CurrentRenderingMode` is ray tracing, re-record the command buffer for
`image_index`; submit it, signaling the slot's fence; present; on
out-of-date/suboptimal present result recreate; other present error →
throw.  `topRecreated` records whether the resize check at the top of the
frame already ran the recreation. -/
def rt_acquire_and_render (s : RtState) (topRecreated : Bool) (current_frame : Nat)
    (inp : RtFrameInput) : RtState × RtFrameOutput × StepStatus :=
  if inp.acquireResult = .errorOutOfDateKhr then
    (rt_recreate_vk_swap_chain_sync s inp.newImageViews,
      ⟨{ FrameOutput.none with recreatedSwapChain := true }, []⟩, .ok)
  else if inp.acquireResult = .errorOther then
    (s, ⟨{ FrameOutput.none with recreatedSwapChain := topRecreated }, []⟩, .fatal)
  else
    let s := { s with fenceSignaled := Function.update s.fenceSignaled current_frame false }
    let s := { s with
      uniformBuffers := update_vk_uniform_buffer s.uniformBuffers inp.imageIndex inp.uboValue }
    let recorded :=
      if CurrentRenderingMode = RenderingMode.rayTracing then
        rt_record_command_buffer s inp.imageIndex
      else
        (s, [])
    let s := { recorded.1 with outstanding := recorded.1.outstanding ++ [current_frame] }
    let out : FrameOutput :=
      { recreatedSwapChain := topRecreated
        fenceResets := [current_frame]
        uniformWriteIndex := some inp.imageIndex
        submittedCommandBuffer := some inp.imageIndex
        submitSignalsFence := some current_frame
        presentedImage := some inp.imageIndex }
    if inp.presentResult = .errorOutOfDateKhr ∨ inp.presentResult = .suboptimalKhr then
      (rt_recreate_vk_swap_chain_sync s inp.newImageViews,
        ⟨{ out with recreatedSwapChain := true }, recorded.2⟩, .ok)
    else if inp.presentResult ≠ .success then
      (s, ⟨out, recorded.2⟩, .fatal)
    else
      (s, ⟨out, recorded.2⟩, .ok)

/-- Embeds `draw_frame` of the ray-tracing variant (main.cpp 4409-4562).
Control flow, in source order: wait on slot `current_frame`'s fence; if the
cached window size has a zero dimension or the resize flag is set, refresh
the cached size from GLFW, return early (skipping the frame) if it is still
zero in either dimension, otherwise clear the flag and recreate the
swapchain; then continue with `rt_acquire_and_render`. -/
def rt_draw_frame (s : RtState) (current_frame : Nat) (inp : RtFrameInput) :
    RtState × RtFrameOutput × StepStatus :=
  let s := rtGpuComplete s inp.completeCount
  if s.fenceSignaled current_frame = false then
    (s, ⟨FrameOutput.none, []⟩, .blocked)
  else if s.windowWidth = 0 ∨ s.windowHeight = 0 ∨ s.framebufferResized then
    let s := { s with windowWidth := inp.framebufferSize.1
                      windowHeight := inp.framebufferSize.2 }
    if s.windowWidth = 0 ∨ s.windowHeight = 0 then
      (s, ⟨FrameOutput.none, []⟩, .ok)
    else
      rt_acquire_and_render
        (rt_recreate_vk_swap_chain_sync { s with framebufferResized := false }
          inp.newImageViews)
        true current_frame inp
  else
    rt_acquire_and_render s false current_frame inp

/-- Initial synchronization state of the ray-tracing variant after
`create_vk_sync_objects` (main.cpp 4332-4354), with the initial window
size, image views and uniform contents supplied by setup. -/
def rt_init_state (w h : Nat) (views : Nat → Nat) (ubo0 : Nat → Nat) : RtState :=
  { fenceSignaled := fun i => create_vk_sync_objects_fences.getD i false
    outstanding := []
    windowWidth := w
    windowHeight := h
    framebufferResized := false
    swapChainImageViews := views
    rtOutputBinding := Option.none
    uniformBuffers := ubo0 }

/-! ## Recreation controller: minimized-window wait (main.cpp 1456-1484)

The rasterization `recreate_vk_swap_chain` first reads the framebuffer
size; if — per the source's `if (window_width == 0 && window_height == 0)`
— BOTH dimensions are zero, it loops `while (window_width == 0 ||
window_height == 0)`, each iteration calling `glfwWaitEvents()` and
re-reading the size; then it calls `vkDeviceWaitIdle` and rebuilds.  The
sizes successively reported by `glfwGetFramebufferSize` are the model's
input: `first_size` for the initial read, `event_sizes` for the reads
inside the wait loop.  The model returns `none` when `event_sizes` is
exhausted with the size still zero (the loop would still be blocking). -/

structure RecreateOutcome where
  waitEventsCalls : Nat
  widthAtRebuild : Nat
  heightAtRebuild : Nat
deriving DecidableEq, Repr

/-- The `while (window_width == 0 || window_height == 0)` wait loop
(main.cpp 1467-1471).  Returns the number of `glfwWaitEvents` calls and
the size in hand when the loop exits. -/
def minimized_wait_loop : Nat → Nat → List (Nat × Nat) → Option RecreateOutcome
  | w, h, event_sizes =>
    if w = 0 ∨ h = 0 then
      match event_sizes with
      | [] => Option.none
      | (w', h') :: rest =>
        (minimized_wait_loop w' h' rest).map fun r =>
          { r with waitEventsCalls := r.waitEventsCalls + 1 }
    else
      some { waitEventsCalls := 0, widthAtRebuild := w, heightAtRebuild := h }

/-- Embeds `recreate_vk_swap_chain` of the rasterization variant
(main.cpp 1456-1484): read the framebuffer size; enter the wait loop only
when the size is zero in BOTH dimensions (`&&` in the source); then
proceed to `vkDeviceWaitIdle` and the rebuild with the size in hand. -/
def recreate_vk_swap_chain (first_size : Nat × Nat) (event_sizes : List (Nat × Nat)) :
    Option RecreateOutcome :=
  if first_size.1 = 0 ∧ first_size.2 = 0 then
    minimized_wait_loop first_size.1 first_size.2 event_sizes
  else
    some { waitEventsCalls := 0
           widthAtRebuild := first_size.1
           heightAtRebuild := first_size.2 }

/-! ## Recreation controller: object lifecycle (main.cpp 4605-4655)

The ray-tracing variant's `cleanup_vk_swap_chain` and
`recreate_vk_swap_chain`, modelled as the sequence of destroy/create
operations they perform on the application's Vulkan objects, in source
order.  The create operations are those performed by the eight
`create_vk_*` functions the recreation calls (main.cpp 4613-4623); each of
those functions creates exactly the objects listed, and none touches the
descriptor sets, the geometry buffers or the acceleration structures. -/

inductive VkObjKind where
  | swapChain
  | swapChainImageViews
  | framebuffers
  | renderPass
  | graphicsPipelineLayout
  | graphicsPipeline
  | colorImage
  | colorImageMemory
  | colorImageView
  | depthImage
  | depthImageMemory
  | depthImageView
  | commandBuffers
  | device
  | vertexBuffer
  | indexBuffer
  | materialBuffer
  | uniformBuffers
  | bottomLevelAS
  | topLevelAS
  | descriptorSets
  | rtDescriptorSet
  | rtPipeline
  | shaderBindingTable
deriving DecidableEq, Repr, Fintype

inductive VkLifecycleOp where
  | destroy (kind : VkObjKind)
  | create (kind : VkObjKind)
  | deviceWaitIdleOp
deriving DecidableEq, Repr

/-- Embeds `cleanup_vk_swap_chain` (main.cpp 4626-4655): the destroy/free
calls it performs, in source order. -/
def cleanup_vk_swap_chain_ops : List VkLifecycleOp :=
  [ .destroy .depthImageView
  , .destroy .depthImage
  , .destroy .depthImageMemory
  , .destroy .colorImageView
  , .destroy .colorImage
  , .destroy .colorImageMemory
  , .destroy .framebuffers
  , .destroy .commandBuffers
  , .destroy .graphicsPipeline
  , .destroy .graphicsPipelineLayout
  , .destroy .renderPass
  , .destroy .swapChainImageViews
  , .destroy .swapChain ]

/-- Embeds `recreate_vk_swap_chain` (main.cpp 4605-4624) as its operation
sequence: `vkDeviceWaitIdle`, `cleanup_vk_swap_chain`, then
`create_vk_swap_chain`, `create_vk_swap_chain_image_views`,
`create_vk_render_pass`, `create_vk_graphics_pipeline` (pipeline layout and
pipeline), `create_vk_color_resources`, `create_vk_depth_resources`,
`create_vk_framebuffers`, `create_vk_command_buffers`. -/
def recreate_vk_swap_chain_ops : List VkLifecycleOp :=
  .deviceWaitIdleOp :: cleanup_vk_swap_chain_ops ++
  [ .create .swapChain
  , .create .swapChainImageViews
  , .create .renderPass
  , .create .graphicsPipelineLayout
  , .create .graphicsPipeline
  , .create .colorImage
  , .create .colorImageMemory
  , .create .colorImageView
  , .create .depthImage
  , .create .depthImageMemory
  , .create .depthImageView
  , .create .framebuffers
  , .create .commandBuffers ]

/-- The swapchain-dependent objects per the claim: swapchain, image views,
framebuffers, render pass, graphics pipeline (with its layout), color and
depth attachments, per-image command buffers. -/
def swapchainDependentKinds : List VkObjKind :=
  [ .swapChain, .swapChainImageViews, .framebuffers, .renderPass
  , .graphicsPipelineLayout, .graphicsPipeline
  , .colorImage, .colorImageMemory, .colorImageView
  , .depthImage, .depthImageMemory, .depthImageView
  , .commandBuffers ]

/-- The objects the claim requires recreation to leave untouched. -/
def recreateUntouchedKinds : List VkObjKind :=
  [ .device, .vertexBuffer, .indexBuffer, .materialBuffer
  , .bottomLevelAS, .topLevelAS, .descriptorSets, .rtDescriptorSet ]

/-! ## Theorems -/

/-- A surface format satisfies the scan predicate of
`choose_vk_swap_surface_format` iff it is `preferredSurfaceFormat`. -/
lemma surfaceFormat_pred_iff (f : VkSurfaceFormatKHR) :
    isPreferredSurfaceFormat f = true ↔ f = preferredSurfaceFormat := by
  cases f
  simp only [isPreferredSurfaceFormat, preferredSurfaceFormat]
  constructor
  · intro h
    simp only [Bool.and_eq_true, decide_eq_true_eq] at h
    simp_all
  · intro h
    cases h
    simp

/-- Claim C7: for every non-empty list of advertised surface formats, the
selector returns the 8-bit BGRA / sRGB-nonlinear pair when that pair is
present in the list, or when the list is exactly one undefined format; and
otherwise it returns the first advertised format. -/
theorem claim_C7_surface_format_selection (fs : List VkSurfaceFormatKHR) (hne : fs ≠ []) :
    ((preferredSurfaceFormat ∈ fs ∨
        (fs.length = 1 ∧ (fs.headD preferredSurfaceFormat).format = VK_FORMAT_UNDEFINED)) →
      choose_vk_swap_surface_format fs = some preferredSurfaceFormat)
  ∧ ((preferredSurfaceFormat ∉ fs ∧
        ¬(fs.length = 1 ∧ (fs.headD preferredSurfaceFormat).format = VK_FORMAT_UNDEFINED)) →
      choose_vk_swap_surface_format fs = fs.head?) := by
  constructor
  · intro hpref
    by_cases hsingle : fs.length = 1 ∧
        (fs.headD preferredSurfaceFormat).format = VK_FORMAT_UNDEFINED
    · rw [choose_vk_swap_surface_format, if_pos hsingle]
    · have hmem : preferredSurfaceFormat ∈ fs := by
        rcases hpref with h | h
        · exact h
        · exact absurd h hsingle
      rw [choose_vk_swap_surface_format, if_neg hsingle]
      rcases hfind : fs.find? isPreferredSurfaceFormat with _ | x
      · exfalso
        have := List.find?_eq_none.mp hfind preferredSurfaceFormat hmem
        rw [surfaceFormat_pred_iff] at this
        exact this rfl
      · have hx := (surfaceFormat_pred_iff x).mp (List.find?_some hfind)
        simp [hx]
  · rintro ⟨hnmem, hsingle⟩
    rw [choose_vk_swap_surface_format, if_neg hsingle]
    have hfind : fs.find? isPreferredSurfaceFormat = none := by
      rw [List.find?_eq_none]
      intro a ha
      intro hcon
      rw [surfaceFormat_pred_iff] at hcon
      exact hnmem (hcon ▸ ha)
    simp [hfind]

/-- Witness for C7 at a concrete format list containing the preferred
pair. -/
theorem claim_C7_witness :
    choose_vk_swap_surface_format
        [{ format := 9, colorSpace := 9 }, preferredSurfaceFormat] =
      some preferredSurfaceFormat :=
  (claim_C7_surface_format_selection
      [{ format := 9, colorSpace := 9 }, preferredSurfaceFormat] (by simp)).1
    (Or.inl (by simp))

/-- Claim C4: one invocation of the ray-tracing variant's swapchain
recreation destroys and rebuilds exactly the swapchain-dependent objects;
every destroy/create it performs is on a swapchain-dependent object, and
the logical device, the vertex/index/material buffers, both acceleration
structures and the descriptor sets are neither destroyed nor created. -/
theorem claim_C4_recreation_touches_only_swapchain_dependent :
    (∀ k ∈ swapchainDependentKinds,
        VkLifecycleOp.destroy k ∈ recreate_vk_swap_chain_ops ∧
        VkLifecycleOp.create k ∈ recreate_vk_swap_chain_ops)
  ∧ (∀ k, (VkLifecycleOp.destroy k ∈ recreate_vk_swap_chain_ops ∨
        VkLifecycleOp.create k ∈ recreate_vk_swap_chain_ops) →
        k ∈ swapchainDependentKinds)
  ∧ (∀ k ∈ recreateUntouchedKinds,
        VkLifecycleOp.destroy k ∉ recreate_vk_swap_chain_ops ∧
        VkLifecycleOp.create k ∉ recreate_vk_swap_chain_ops) := by
  refine ⟨?_, ?_, ?_⟩ <;> decide

/-- Witness for C4 at the swapchain itself and the top-level acceleration
structure. -/
theorem claim_C4_witness :
    (VkLifecycleOp.destroy .swapChain ∈ recreate_vk_swap_chain_ops ∧
      VkLifecycleOp.create .swapChain ∈ recreate_vk_swap_chain_ops) ∧
    VkLifecycleOp.destroy .topLevelAS ∉ recreate_vk_swap_chain_ops :=
  ⟨claim_C4_recreation_touches_only_swapchain_dependent.1 .swapChain (by decide),
    (claim_C4_recreation_touches_only_swapchain_dependent.2.2 .topLevelAS (by decide)).1⟩

/-- If the minimized-wait loop exits, the size in hand is nonzero in both
dimensions, and at least one `glfwWaitEvents` call was made whenever the
loop was entered with a zero dimension. -/
lemma minimized_wait_loop_spec :
    ∀ (event_sizes : List (Nat × Nat)) (w h : Nat) (r : RecreateOutcome),
      minimized_wait_loop w h event_sizes = some r →
      r.widthAtRebuild ≠ 0 ∧ r.heightAtRebuild ≠ 0 ∧
        ((w = 0 ∨ h = 0) → 1 ≤ r.waitEventsCalls) := by
  intro event_sizes
  induction event_sizes with
  | nil =>
    intro w h r hr
    rw [minimized_wait_loop] at hr
    by_cases hz : w = 0 ∨ h = 0
    · simp [hz] at hr
    · rw [if_neg hz] at hr
      push_neg at hz
      cases hr
      exact ⟨hz.1, hz.2, fun hcon => absurd hcon (by push_neg; exact hz)⟩
  | cons e rest ih =>
    intro w h r hr
    rw [minimized_wait_loop] at hr
    by_cases hz : w = 0 ∨ h = 0
    · rw [if_pos hz] at hr
      obtain ⟨r', hr', hmap⟩ := Option.map_eq_some'.mp hr
      obtain ⟨hw', hh', _⟩ := ih e.1 e.2 r' hr'
      subst hmap
      exact ⟨hw', hh', fun _ => Nat.le_add_left 1 r'.waitEventsCalls⟩
    · rw [if_neg hz] at hr
      push_neg at hz
      cases hr
      exact ⟨hz.1, hz.2, fun hcon => absurd hcon (by push_neg; exact hz)⟩

/-- Counterexample to C3 as stated: with a framebuffer size of 0×600 —
zero in one dimension only — the recreation procedure performs no
event-wait at all and proceeds to device-wait-idle and rebuild with a
zero width, because the source guards the wait loop with
`window_width == 0 && window_height == 0`. -/
theorem claim_C3_counterexample :
    ((0, 600) : Nat × Nat).1 = 0 ∧
    recreate_vk_swap_chain (0, 600) [] =
      some { waitEventsCalls := 0, widthAtRebuild := 0, heightAtRebuild := 600 } := by
  constructor
  · rfl
  · rfl

/-- Claim C3, amended: the recreation procedure blocks waiting for events
only when the observed framebuffer size is zero in BOTH dimensions, and in
that case it waits until both dimensions are nonzero before proceeding to
device-wait-idle and rebuild; when at most one dimension is zero it
proceeds immediately, with no event-wait, using the size as read. -/
theorem claim_C3_minimized_wait (first_size : Nat × Nat)
    (event_sizes : List (Nat × Nat)) (r : RecreateOutcome)
    (h : recreate_vk_swap_chain first_size event_sizes = some r) :
    (first_size.1 = 0 ∧ first_size.2 = 0 →
      1 ≤ r.waitEventsCalls ∧ r.widthAtRebuild ≠ 0 ∧ r.heightAtRebuild ≠ 0)
  ∧ (¬(first_size.1 = 0 ∧ first_size.2 = 0) →
      r.waitEventsCalls = 0 ∧ r.widthAtRebuild = first_size.1 ∧
        r.heightAtRebuild = first_size.2) := by
  constructor
  · intro hz
    rw [recreate_vk_swap_chain, if_pos hz] at h
    obtain ⟨hw, hh, hwait⟩ := minimized_wait_loop_spec event_sizes _ _ r h
    exact ⟨hwait (Or.inl hz.1), hw, hh⟩
  · intro hz
    rw [recreate_vk_swap_chain, if_neg hz] at h
    cases h
    exact ⟨rfl, rfl, rfl⟩

/-- Witness for the amended C3: minimized at 0×0, one event restores
800×600; the loop waits once and rebuilds at the nonzero size. -/
theorem claim_C3_witness :
    1 ≤ (1 : Nat) ∧ (800 : Nat) ≠ 0 ∧ (600 : Nat) ≠ 0 :=
  (claim_C3_minimized_wait (0, 0) [(800, 600)]
      { waitEventsCalls := 1, widthAtRebuild := 800, heightAtRebuild := 600 }
      (by rfl)).1 ⟨rfl, rfl⟩

/-- The source's bit test `type_filter & (1UL << i)` is nonzero iff bit `i`
of `type_filter` is set. -/
lemma and_one_shiftLeft_ne_zero (n i : Nat) :
    n &&& (1 <<< i) ≠ 0 ↔ n.testBit i := by
  rw [Nat.one_shiftLeft, Nat.and_two_pow]
  cases h : n.testBit i <;> simp [Nat.pow_eq_zero]

/-- Soundness of the memory-type scan loop: an `ok i` answer means entry
`i - i0` of the remaining list is suitable and no earlier entry is. -/
lemma vku_find_memory_type_loop_ok (tf props : Nat) :
    ∀ (mts : List VkMemoryType) (i0 i : Nat),
      vku_find_memory_type_loop tf props i0 mts = .ok i →
      ∃ k, i = i0 + k ∧ k < mts.length ∧
        (tf.testBit (i0 + k) ∧
          (mts.getD k ⟨0⟩).propertyFlags &&& props = props) ∧
        ∀ j < k, ¬(tf.testBit (i0 + j) ∧
          (mts.getD j ⟨0⟩).propertyFlags &&& props = props) := by
  intro mts
  induction mts with
  | nil => intro i0 i h; exact absurd h (by rw [vku_find_memory_type_loop]; simp)
  | cons mt rest ih =>
    intro i0 i h
    rw [vku_find_memory_type_loop] at h
    by_cases hc : tf &&& (1 <<< i0) ≠ 0 ∧ mt.propertyFlags &&& props = props
    · rw [if_pos hc] at h
      cases h
      refine ⟨0, by omega, by simp, ?_, by omega⟩
      rw [Nat.add_zero] at *
      exact ⟨(and_one_shiftLeft_ne_zero tf i0).mp hc.1, by simpa using hc.2⟩
    · rw [if_neg hc] at h
      obtain ⟨k', hi, hk, hcond, hmin⟩ := ih (i0 + 1) i h
      refine ⟨k' + 1, by omega, by simpa using hk, ?_, ?_⟩
      · constructor
        · have : i0 + (k' + 1) = i0 + 1 + k' := by omega
          rw [this]; exact hcond.1
        · simpa using hcond.2
      · intro j hj
        match j with
        | 0 =>
          intro ⟨hbit, hflags⟩
          rw [Nat.add_zero] at hbit
          exact hc ⟨(and_one_shiftLeft_ne_zero tf i0).mpr hbit, by simpa using hflags⟩
        | j' + 1 =>
          have hj' : j' < k' := by omega
          intro ⟨hbit, hflags⟩
          refine hmin j' hj' ⟨?_, by simpa using hflags⟩
          have : i0 + 1 + j' = i0 + (j' + 1) := by omega
          rw [this]; exact hbit

/-- If the memory-type scan loop throws, its message is the fixed one and
no remaining entry is suitable. -/
lemma vku_find_memory_type_loop_err (tf props : Nat) :
    ∀ (mts : List VkMemoryType) (i0 : Nat) (msg : String),
      vku_find_memory_type_loop tf props i0 mts = .error msg →
      msg = "Failed to find suitable Vulkan memory type" ∧
      ∀ k < mts.length, ¬(tf.testBit (i0 + k) ∧
        (mts.getD k ⟨0⟩).propertyFlags &&& props = props) := by
  intro mts
  induction mts with
  | nil =>
    intro i0 msg h
    rw [vku_find_memory_type_loop] at h
    cases h
    exact ⟨rfl, fun k hk => absurd hk (by simp)⟩
  | cons mt rest ih =>
    intro i0 msg h
    rw [vku_find_memory_type_loop] at h
    by_cases hc : tf &&& (1 <<< i0) ≠ 0 ∧ mt.propertyFlags &&& props = props
    · rw [if_pos hc] at h; cases h
    · rw [if_neg hc] at h
      obtain ⟨hmsg, hmin⟩ := ih (i0 + 1) msg h
      refine ⟨hmsg, ?_⟩
      intro k hk
      match k with
      | 0 =>
        intro ⟨hbit, hflags⟩
        rw [Nat.add_zero] at hbit
        exact hc ⟨(and_one_shiftLeft_ne_zero tf i0).mpr hbit, by simpa using hflags⟩
      | k' + 1 =>
        have hk' : k' < rest.length := by simpa using hk
        intro ⟨hbit, hflags⟩
        refine hmin k' hk' ⟨?_, by simpa using hflags⟩
        have : i0 + 1 + k' = i0 + (k' + 1) := by omega
        rw [this]; exact hbit

/-- Claim C8: `vku_find_memory_type` returns the smallest index whose bit
is set in the type filter and whose property flags contain the requested
flags; when no reported memory type qualifies it throws (modelled by
`Except.error`), which `main` turns into process exit code 1 — it neither
returns a value nor retries. -/
theorem claim_C8_find_memory_type (pmp : VkPhysicalDeviceMemoryProperties)
    (type_filter properties : Nat) :
    (∀ i, vku_find_memory_type pmp type_filter properties = .ok i →
      SuitableMemoryType type_filter properties pmp.memoryTypes i ∧
        ∀ j, SuitableMemoryType type_filter properties pmp.memoryTypes j → i ≤ j)
  ∧ ((∃ i, SuitableMemoryType type_filter properties pmp.memoryTypes i) →
      ∃ i, vku_find_memory_type pmp type_filter properties = .ok i)
  ∧ ((∀ i, ¬SuitableMemoryType type_filter properties pmp.memoryTypes i) →
      vku_find_memory_type pmp type_filter properties =
        .error "Failed to find suitable Vulkan memory type" ∧
      main_exit_code
        (vku_find_memory_type pmp type_filter properties) = 1) := by
  have hok : ∀ i, vku_find_memory_type pmp type_filter properties = .ok i →
      SuitableMemoryType type_filter properties pmp.memoryTypes i ∧
        ∀ j, SuitableMemoryType type_filter properties pmp.memoryTypes j → i ≤ j := by
    intro i h
    obtain ⟨k, hi, hk, hcond, hmin⟩ :=
      vku_find_memory_type_loop_ok type_filter properties pmp.memoryTypes 0 i h
    have hik : i = k := by omega
    subst hik
    constructor
    · exact ⟨hk, by simpa using hcond.1, hcond.2⟩
    · intro j hj
      by_contra hcon
      push_neg at hcon
      exact hmin j hcon ⟨by simpa using hj.2.1, hj.2.2⟩
  refine ⟨hok, ?_, ?_⟩
  · intro ⟨i, hi⟩
    rcases hres : vku_find_memory_type pmp type_filter properties with msg | j
    · exfalso
      obtain ⟨-, hmin⟩ :=
        vku_find_memory_type_loop_err type_filter properties pmp.memoryTypes 0 msg hres
      exact hmin i hi.1 ⟨by simpa using hi.2.1, hi.2.2⟩
    · exact ⟨j, rfl⟩
  · intro hnone
    rcases hres : vku_find_memory_type pmp type_filter properties with msg | j
    · obtain ⟨hmsg, -⟩ :=
        vku_find_memory_type_loop_err type_filter properties pmp.memoryTypes 0 msg hres
      subst hmsg
      exact ⟨rfl, rfl⟩
    · exact absurd (hok j hres).1 (hnone j)

/-- Witness for C8: a two-entry table where only index 1 passes both the
filter bit and the property containment; the scan returns index 1, which is
suitable. -/
theorem claim_C8_witness :
    vku_find_memory_type { memoryTypes := [⟨0⟩, ⟨3⟩] } 2 1 = .ok 1 ∧
    SuitableMemoryType 2 1 [⟨0⟩, ⟨3⟩] 1 :=
  ⟨by rfl,
    ((claim_C8_find_memory_type { memoryTypes := [⟨0⟩, ⟨3⟩] } 2 1).1 1 (by rfl)).1⟩

/-- Synchronization invariant of the render loop: submitted-but-unfenced
command buffers occupy pairwise distinct frame slots, every such slot is a
valid slot index, and a slot with an outstanding submission has an
unsignaled fence. -/
def SyncInv (s : RenderState) : Prop :=
  s.outstanding.Nodup ∧
  (∀ x ∈ s.outstanding, x < MaxFramesInFlight) ∧
  (∀ x ∈ s.outstanding, s.fenceSignaled x = false)

lemma syncInv_gpuComplete {s : RenderState} (k : Nat) (h : SyncInv s) :
    SyncInv (gpuComplete s k) := by
  obtain ⟨hnd, hlt, hfence⟩ := h
  refine ⟨?_, ?_, ?_⟩
  · exact List.Nodup.sublist (List.drop_sublist k s.outstanding) hnd
  · intro x hx
    exact hlt x (List.mem_of_mem_drop hx)
  · intro x hx
    have hdisj := List.disjoint_take_drop hnd (le_refl k)
    have hnotin : x ∉ s.outstanding.take k := fun htk => hdisj htk hx
    simp [gpuComplete, hfence x (List.mem_of_mem_drop hx), hnotin]

lemma syncInv_deviceWaitIdle {s : RenderState} (h : SyncInv s) :
    SyncInv (deviceWaitIdle s) := by
  refine ⟨List.nodup_nil, ?_, ?_⟩ <;> simp [deviceWaitIdle]

/-- One `draw_frame` call preserves the synchronization invariant: the slot
fence is waited on (so an outstanding submission on that slot has been
fenced) before the slot's fence is reset and a new submission signaling it
is enqueued. -/
lemma syncInv_draw_frame {s : RenderState} (inp : FrameInput) (f : Nat)
    (hf : f < MaxFramesInFlight) (h : SyncInv s) :
    SyncInv (draw_frame s f inp).1 := by
  have h1 : SyncInv (gpuComplete s inp.completeCount) := syncInv_gpuComplete _ h
  simp only [draw_frame]
  set s1 := gpuComplete s inp.completeCount with hs1
  by_cases hw : s1.fenceSignaled f = false
  · simp only [if_pos hw]
    exact h1
  · simp only [if_neg hw]
    have htrue : s1.fenceSignaled f = true := by
      revert hw; cases s1.fenceSignaled f <;> simp
    have hfnotin : f ∉ s1.outstanding := by
      intro hmem
      have := h1.2.2 f hmem
      rw [htrue] at this
      cases this
    have h4 : SyncInv
        { s1 with
          fenceSignaled := Function.update s1.fenceSignaled f false
          uniformBuffers := update_vk_uniform_buffer s1.uniformBuffers inp.imageIndex inp.uboValue
          outstanding := s1.outstanding ++ [f] } := by
      refine ⟨?_, ?_, ?_⟩
      · simpa [List.nodup_append] using ⟨h1.1, hfnotin⟩
      · intro x hx
        rcases List.mem_append.mp hx with hx | hx
        · exact h1.2.1 x hx
        · rw [List.mem_singleton.mp hx]; exact hf
      · intro x hx
        by_cases hxf : x = f
        · subst hxf; simp
        · rcases List.mem_append.mp hx with hx | hx
          · simp [Function.update_noteq hxf, h1.2.2 x hx]
          · exact absurd (List.mem_singleton.mp hx) hxf
    by_cases ha1 : inp.acquireResult = VkResult.errorOutOfDateKhr
    · simp only [if_pos ha1]
      exact syncInv_deviceWaitIdle h1
    · simp only [if_neg ha1]
      by_cases ha2 : inp.acquireResult = VkResult.errorOther
      · simp only [if_pos ha2]
        exact h1
      · simp only [if_neg ha2]
        by_cases hp : inp.presentResult = VkResult.errorOutOfDateKhr ∨
            inp.presentResult = VkResult.suboptimalKhr ∨
            ({ s1 with
                fenceSignaled := Function.update s1.fenceSignaled f false
                uniformBuffers :=
                  update_vk_uniform_buffer s1.uniformBuffers inp.imageIndex inp.uboValue
                outstanding := s1.outstanding ++ [f] } : RenderState).framebufferResized = true
        · simp only [if_pos hp]
          refine syncInv_deviceWaitIdle ⟨h4.1, h4.2.1, h4.2.2⟩
        · simp only [if_neg hp]
          by_cases hps : inp.presentResult ≠ VkResult.success
          · simp only [if_pos hps]
            exact h4
          · simp only [if_neg hps]
            exact h4

/-- Outstanding-work bound from the invariant: distinct valid slot indices
number at most `MaxFramesInFlight`. -/
lemma outstanding_length_le_of_syncInv {s : RenderState} (h : SyncInv s) :
    s.outstanding.length ≤ MaxFramesInFlight := by
  have hsub : s.outstanding ⊆ List.range MaxFramesInFlight := fun x hx =>
    List.mem_range.mpr (h.2.1 x hx)
  have := List.Subperm.length_le (List.Nodup.subperm h.1 hsub)
  simpa using this

/-- Setting the resize flag does not affect the synchronization state. -/
lemma syncInv_set_resized {s : RenderState} (b : Bool) (h : SyncInv s) :
    SyncInv { s with framebufferResized := b } :=
  ⟨h.1, h.2.1, h.2.2⟩

/-- Every state reached by the render loop satisfies the synchronization
invariant. -/
lemma syncInv_main_loop_run :
    ∀ (inputs : List (Bool × FrameInput)) (s : RenderState) (cf : Nat),
      cf < MaxFramesInFlight → SyncInv s →
      ∀ t ∈ main_loop_run s cf inputs, SyncInv t := by
  intro inputs
  induction inputs with
  | nil =>
    intro s cf hcf hs t ht
    rw [main_loop_run] at ht
    rw [List.mem_singleton.mp ht]
    exact hs
  | cons head rest ih =>
    obtain ⟨resizeEvent, inp⟩ := head
    intro s cf hcf hs t ht
    rw [main_loop_run] at ht
    rcases List.mem_cons.mp ht with h | h
    · rw [h]; exact hs
    · have hs0 : SyncInv { s with framebufferResized := s.framebufferResized || resizeEvent } :=
        syncInv_set_resized _ hs
      have hinv' := syncInv_draw_frame inp cf hcf hs0
      rcases hdf : draw_frame { s with framebufferResized := s.framebufferResized || resizeEvent }
          cf inp with ⟨s', out, st⟩
      rw [hdf] at hinv'
      rw [hdf] at h
      cases st
      · rw [List.mem_singleton.mp h]; exact hinv'
      · rw [List.mem_singleton.mp h]; exact hinv'
      · exact ih s' ((cf + 1) % MaxFramesInFlight)
          (Nat.mod_lt _ (by rw [MaxFramesInFlight]; omega)) hinv' t h

/-- Claim C1: in every execution of the render loop started right after
`create_vk_sync_objects`, the number of submitted-but-unfenced command
buffers never exceeds `MaxFramesInFlight`: before slot `f = frame_counter
mod MaxFramesInFlight` is reused the loop blocks on slot `f`'s fence, and
each submission signals exactly that slot's fence, so every state the loop
reaches has at most `MaxFramesInFlight` outstanding submissions. -/
theorem claim_C1_frames_in_flight_bound (ubo0 : Nat → Nat)
    (inputs : List (Bool × FrameInput)) (t : RenderState)
    (ht : t ∈ main_loop_run (init_render_state ubo0) 0 inputs) :
    t.outstanding.length ≤ MaxFramesInFlight :=
  outstanding_length_le_of_syncInv
    (syncInv_main_loop_run inputs (init_render_state ubo0) 0
      (by rw [MaxFramesInFlight]; omega)
      ⟨List.nodup_nil, by simp [init_render_state], by simp [init_render_state]⟩ t ht)

/-- Witness for C1 on a two-frame run with a successful and a suboptimal
presentation. -/
theorem claim_C1_witness :
    (init_render_state (fun _ => 0)).outstanding.length ≤ MaxFramesInFlight :=
  claim_C1_frames_in_flight_bound (fun _ => 0)
    [(false, { completeCount := 0, acquireResult := .success, imageIndex := 0,
               uboValue := 1, presentResult := .success })]
    (init_render_state (fun _ => 0))
    (List.mem_cons_self _ _)

/-- The ray-tracing `draw_frame` skips the frame at the resize check
(main.cpp 4413-4417): the cached size is stale-zero or a resize is pending,
and the freshly read framebuffer size is still zero in a dimension. -/
def rtSkipsFrame (s : RtState) (inp : RtFrameInput) : Prop :=
  (s.windowWidth = 0 ∨ s.windowHeight = 0 ∨ s.framebufferResized = true) ∧
  (inp.framebufferSize.1 = 0 ∨ inp.framebufferSize.2 = 0)

instance (s : RtState) (inp : RtFrameInput) : Decidable (rtSkipsFrame s inp) := by
  unfold rtSkipsFrame; infer_instance

/-- Claim C2: in both variants, a frame whose image acquisition reports
out-of-date runs the swapchain recreation and aborts: nothing is submitted
to the graphics queue and no present call is issued, and control returns
normally to the loop.  A frame whose acquisition reports suboptimal behaves
exactly as one whose acquisition succeeds — the suboptimal condition is
only acted on at presentation time — and in particular submits and presents
the acquired image. -/
theorem claim_C2_acquire_result_handling :
    (∀ (s : RenderState) (f : Nat) (inp : FrameInput),
      (gpuComplete s inp.completeCount).fenceSignaled f = true →
      (inp.acquireResult = .errorOutOfDateKhr →
        (draw_frame s f inp).2.1.recreatedSwapChain = true ∧
        (draw_frame s f inp).2.1.submittedCommandBuffer = Option.none ∧
        (draw_frame s f inp).2.1.presentedImage = Option.none ∧
        (draw_frame s f inp).2.2 = .ok) ∧
      (inp.acquireResult = .suboptimalKhr →
        draw_frame s f inp = draw_frame s f { inp with acquireResult := .success } ∧
        (draw_frame s f inp).2.1.submittedCommandBuffer = some inp.imageIndex ∧
        (draw_frame s f inp).2.1.presentedImage = some inp.imageIndex))
  ∧ (∀ (s : RtState) (f : Nat) (inp : RtFrameInput),
      (rtGpuComplete s inp.completeCount).fenceSignaled f = true →
      ¬rtSkipsFrame s inp →
      (inp.acquireResult = .errorOutOfDateKhr →
        (rt_draw_frame s f inp).2.1.base.recreatedSwapChain = true ∧
        (rt_draw_frame s f inp).2.1.base.submittedCommandBuffer = Option.none ∧
        (rt_draw_frame s f inp).2.1.base.presentedImage = Option.none ∧
        (rt_draw_frame s f inp).2.2 = .ok) ∧
      (inp.acquireResult = .suboptimalKhr →
        rt_draw_frame s f inp = rt_draw_frame s f { inp with acquireResult := .success } ∧
        (rt_draw_frame s f inp).2.1.base.submittedCommandBuffer = some inp.imageIndex ∧
        (rt_draw_frame s f inp).2.1.base.presentedImage = some inp.imageIndex)) := by
  constructor
  · intro s f inp hw
    have hwne : ¬(gpuComplete s inp.completeCount).fenceSignaled f = false := by
      rw [hw]; simp
    constructor
    · intro hacq
      simp only [draw_frame, if_neg hwne, if_pos hacq]
      simp [FrameOutput.none]
    · intro hacq
      have h1 : inp.acquireResult ≠ VkResult.errorOutOfDateKhr := by rw [hacq]; decide
      have h2 : inp.acquireResult ≠ VkResult.errorOther := by rw [hacq]; decide
      refine ⟨?_, ?_, ?_⟩
      · simp only [draw_frame, if_neg hwne, if_neg h1, if_neg h2]
        simp
      · simp only [draw_frame, if_neg hwne, if_neg h1, if_neg h2]
        split
        · simp
        · split <;> simp
      · simp only [draw_frame, if_neg hwne, if_neg h1, if_neg h2]
        split
        · simp
        · split <;> simp
  · intro s f inp hw hskip
    have hwne : ¬(rtGpuComplete s inp.completeCount).fenceSignaled f = false := by
      rw [hw]; simp
    have hwin : (rtGpuComplete s inp.completeCount).windowWidth = s.windowWidth ∧
        (rtGpuComplete s inp.completeCount).windowHeight = s.windowHeight ∧
        (rtGpuComplete s inp.completeCount).framebufferResized = s.framebufferResized :=
      ⟨rfl, rfl, rfl⟩
    constructor
    · intro hacq
      simp only [rt_draw_frame, if_neg hwne]
      by_cases htop : (rtGpuComplete s inp.completeCount).windowWidth = 0 ∨
          (rtGpuComplete s inp.completeCount).windowHeight = 0 ∨
          (rtGpuComplete s inp.completeCount).framebufferResized = true
      · have hinner : ¬(inp.framebufferSize.1 = 0 ∨ inp.framebufferSize.2 = 0) := by
          intro hcon
          exact hskip ⟨by rw [← hwin.1, ← hwin.2.1, ← hwin.2.2]; exact htop, hcon⟩
        simp only [if_pos htop, if_neg hinner]
        simp only [rt_acquire_and_render, if_pos hacq]
        simp [FrameOutput.none]
      · simp only [if_neg htop]
        simp only [rt_acquire_and_render, if_pos hacq]
        simp [FrameOutput.none]
    · intro hacq
      have h1 : inp.acquireResult ≠ VkResult.errorOutOfDateKhr := by rw [hacq]; decide
      have h2 : inp.acquireResult ≠ VkResult.errorOther := by rw [hacq]; decide
      have hbody : ∀ (s' : RtState) (b : Bool),
          rt_acquire_and_render s' b f inp =
            rt_acquire_and_render s' b f { inp with acquireResult := .success } ∧
          (rt_acquire_and_render s' b f inp).2.1.base.submittedCommandBuffer =
            some inp.imageIndex ∧
          (rt_acquire_and_render s' b f inp).2.1.base.presentedImage =
            some inp.imageIndex := by
        intro s' b
        refine ⟨?_, ?_, ?_⟩
        · simp only [rt_acquire_and_render, if_neg h1, if_neg h2]
          simp [CurrentRenderingMode]
        · simp only [rt_acquire_and_render, if_neg h1, if_neg h2]
          split
          · simp
          · split <;> simp
        · simp only [rt_acquire_and_render, if_neg h1, if_neg h2]
          split
          · simp
          · split <;> simp
      simp only [rt_draw_frame, if_neg hwne]
      by_cases htop : (rtGpuComplete s inp.completeCount).windowWidth = 0 ∨
          (rtGpuComplete s inp.completeCount).windowHeight = 0 ∨
          (rtGpuComplete s inp.completeCount).framebufferResized = true
      · have hinner : ¬(inp.framebufferSize.1 = 0 ∨ inp.framebufferSize.2 = 0) := by
          intro hcon
          exact hskip ⟨by rw [← hwin.1, ← hwin.2.1, ← hwin.2.2]; exact htop, hcon⟩
        simp only [if_pos htop, if_neg hinner]
        exact hbody _ _
      · simp only [if_neg htop]
        exact hbody _ _

/-- Witness for C2: the rasterization variant on the initial state with an
out-of-date acquisition recreates, submits nothing and presents nothing. -/
theorem claim_C2_witness :
    (draw_frame (init_render_state (fun _ => 0)) 0
        { completeCount := 0, acquireResult := .errorOutOfDateKhr, imageIndex := 0,
          uboValue := 1, presentResult := .success }).2.1.recreatedSwapChain = true ∧
    (draw_frame (init_render_state (fun _ => 0)) 0
        { completeCount := 0, acquireResult := .errorOutOfDateKhr, imageIndex := 0,
          uboValue := 1, presentResult := .success }).2.1.submittedCommandBuffer =
      Option.none :=
  have h := (claim_C2_acquire_result_handling.1 (init_render_state (fun _ => 0)) 0
    { completeCount := 0, acquireResult := .errorOutOfDateKhr, imageIndex := 0,
      uboValue := 1, presentResult := .success } (by rfl)).1 rfl
  ⟨h.1, h.2.1⟩

/-- GPU completion can only signal fences, never unsignal them. -/
lemma gpuComplete_fence_mono {s : RenderState} {f : Nat} (k : Nat)
    (h : s.fenceSignaled f = true) : (gpuComplete s k).fenceSignaled f = true := by
  simp [gpuComplete, h]

lemma rtGpuComplete_fence_mono {s : RtState} {f : Nat} (k : Nat)
    (h : s.fenceSignaled f = true) : (rtGpuComplete s k).fenceSignaled f = true := by
  simp [rtGpuComplete, h]

/-- A `draw_frame` on a slot whose fence is already signaled never blocks. -/
lemma draw_frame_not_blocked {s : RenderState} {f : Nat}
    (h : s.fenceSignaled f = true) (inp : FrameInput) :
    (draw_frame s f inp).2.2 ≠ .blocked := by
  have hw := gpuComplete_fence_mono inp.completeCount h
  have hwne : ¬(gpuComplete s inp.completeCount).fenceSignaled f = false := by
    rw [hw]; simp
  simp only [draw_frame, if_neg hwne]
  split
  · simp
  · split
    · simp
    · split
      · simp
      · split <;> simp

/-- A ray-tracing `draw_frame` on a slot whose fence is already signaled
never blocks. -/
lemma rt_draw_frame_not_blocked {s : RtState} {f : Nat}
    (h : s.fenceSignaled f = true) (inp : RtFrameInput) :
    (rt_draw_frame s f inp).2.2 ≠ .blocked := by
  have hw := rtGpuComplete_fence_mono inp.completeCount h
  have hwne : ¬(rtGpuComplete s inp.completeCount).fenceSignaled f = false := by
    rw [hw]; simp
  have hbody : ∀ (s' : RtState) (b : Bool),
      (rt_acquire_and_render s' b f inp).2.2 ≠ .blocked := by
    intro s' b
    simp only [rt_acquire_and_render]
    split
    · simp
    · split
      · simp
      · split
        · simp
        · split <;> simp
  simp only [rt_draw_frame, if_neg hwne]
  split
  · split
    · simp
    · exact hbody _ _
  · exact hbody _ _

/-- The fences created by `create_vk_sync_objects` are signaled. -/
lemma init_fence_signaled (ubo0 : Nat → Nat) {f : Nat} (hf : f < MaxFramesInFlight) :
    (init_render_state ubo0).fenceSignaled f = true := by
  simp only [init_render_state, create_vk_sync_objects_fences]
  rw [List.getD_eq_getElem?_getD, List.getElem?_replicate, if_pos hf]
  rfl

lemma rt_init_fence_signaled (w h : Nat) (views ubo0 : Nat → Nat) {f : Nat}
    (hf : f < MaxFramesInFlight) :
    (rt_init_state w h views ubo0).fenceSignaled f = true := by
  simp only [rt_init_state, create_vk_sync_objects_fences]
  rw [List.getD_eq_getElem?_getD, List.getElem?_replicate, if_pos hf]
  rfl

/-- Claim C9: every per-frame fence is created in the signaled state
(`VK_FENCE_CREATE_SIGNALED_BIT`), so in both variants the very first fence
wait on any valid frame slot returns immediately rather than blocking;
thereafter a frame with a successful (or suboptimal) acquisition resets the
slot's fence exactly once and its submission signals exactly that slot's
fence, while an out-of-date acquisition performs no reset. -/
theorem claim_C9_fence_initialization_and_reset_discipline :
    (∀ i < MaxFramesInFlight, create_vk_sync_objects_fences.getD i false = true)
  ∧ (∀ (ubo0 : Nat → Nat) (f : Nat) (inp : FrameInput), f < MaxFramesInFlight →
      (draw_frame (init_render_state ubo0) f inp).2.2 ≠ .blocked)
  ∧ (∀ (w h : Nat) (views ubo0 : Nat → Nat) (f : Nat) (inp : RtFrameInput),
      f < MaxFramesInFlight →
      (rt_draw_frame (rt_init_state w h views ubo0) f inp).2.2 ≠ .blocked)
  ∧ (∀ (s : RenderState) (f : Nat) (inp : FrameInput),
      (gpuComplete s inp.completeCount).fenceSignaled f = true →
      ((inp.acquireResult = .success ∨ inp.acquireResult = .suboptimalKhr) →
        (draw_frame s f inp).2.1.fenceResets = [f] ∧
        (draw_frame s f inp).2.1.submitSignalsFence = some f) ∧
      (inp.acquireResult = .errorOutOfDateKhr →
        (draw_frame s f inp).2.1.fenceResets = [])) := by
  refine ⟨?_, ?_, ?_, ?_⟩
  · intro i hi
    have := init_fence_signaled (fun _ => 0) hi
    simpa [init_render_state] using this
  · intro ubo0 f inp hf
    exact draw_frame_not_blocked (init_fence_signaled ubo0 hf) inp
  · intro w h views ubo0 f inp hf
    exact rt_draw_frame_not_blocked (rt_init_fence_signaled w h views ubo0 hf) inp
  · intro s f inp hw
    have hwne : ¬(gpuComplete s inp.completeCount).fenceSignaled f = false := by
      rw [hw]; simp
    constructor
    · intro hacq
      have h1 : inp.acquireResult ≠ VkResult.errorOutOfDateKhr := by
        rcases hacq with h | h <;> rw [h] <;> decide
      have h2 : inp.acquireResult ≠ VkResult.errorOther := by
        rcases hacq with h | h <;> rw [h] <;> decide
      constructor
      · simp only [draw_frame, if_neg hwne, if_neg h1, if_neg h2]
        split
        · simp
        · split <;> simp
      · simp only [draw_frame, if_neg hwne, if_neg h1, if_neg h2]
        split
        · simp
        · split <;> simp
    · intro hacq
      simp only [draw_frame, if_neg hwne, if_pos hacq]
      simp [FrameOutput.none]

/-- Witness for C9: slot 0's fence starts signaled and the first frame on
the fresh state does not block. -/
theorem claim_C9_witness :
    create_vk_sync_objects_fences.getD 0 false = true ∧
    (draw_frame (init_render_state (fun _ => 0)) 0
        { completeCount := 0, acquireResult := .success, imageIndex := 0,
          uboValue := 1, presentResult := .success }).2.2 ≠ .blocked :=
  ⟨claim_C9_fence_initialization_and_reset_discipline.1 0 (by rw [MaxFramesInFlight]; omega),
    claim_C9_fence_initialization_and_reset_discipline.2.1 (fun _ => 0) 0
      { completeCount := 0, acquireResult := .success, imageIndex := 0,
        uboValue := 1, presentResult := .success } (by rw [MaxFramesInFlight]; omega)⟩

/-- Claim C10: in both variants, when a frame is aborted because
acquisition reports out-of-date, the slot's fence is not reset (no reset
happens on that path), the slot's fence is still signaled afterwards (the
wait had just observed it signaled, and the recreation's device-wait-idle
only signals further fences), and a subsequent `draw_frame` on the same
slot does not block. -/
theorem claim_C10_out_of_date_leaves_slot_reusable :
    (∀ (s : RenderState) (f : Nat) (inp : FrameInput),
      (gpuComplete s inp.completeCount).fenceSignaled f = true →
      inp.acquireResult = .errorOutOfDateKhr →
      (draw_frame s f inp).2.1.fenceResets = [] ∧
      (draw_frame s f inp).1.fenceSignaled f = true ∧
      ∀ inp2 : FrameInput, (draw_frame (draw_frame s f inp).1 f inp2).2.2 ≠ .blocked)
  ∧ (∀ (s : RtState) (f : Nat) (inp : RtFrameInput),
      (rtGpuComplete s inp.completeCount).fenceSignaled f = true →
      ¬rtSkipsFrame s inp →
      inp.acquireResult = .errorOutOfDateKhr →
      (rt_draw_frame s f inp).2.1.base.fenceResets = [] ∧
      (rt_draw_frame s f inp).1.fenceSignaled f = true ∧
      ∀ inp2 : RtFrameInput,
        (rt_draw_frame (rt_draw_frame s f inp).1 f inp2).2.2 ≠ .blocked) := by
  constructor
  · intro s f inp hw hacq
    have hwne : ¬(gpuComplete s inp.completeCount).fenceSignaled f = false := by
      rw [hw]; simp
    have hpost : (draw_frame s f inp).1.fenceSignaled f = true := by
      simp only [draw_frame, if_neg hwne, if_pos hacq]
      simp [recreate_vk_swap_chain_sync, deviceWaitIdle, hw]
    refine ⟨?_, hpost, fun inp2 => draw_frame_not_blocked hpost inp2⟩
    simp only [draw_frame, if_neg hwne, if_pos hacq]
    simp [FrameOutput.none]
  · intro s f inp hw hskip hacq
    have hwne : ¬(rtGpuComplete s inp.completeCount).fenceSignaled f = false := by
      rw [hw]; simp
    have hwin : (rtGpuComplete s inp.completeCount).windowWidth = s.windowWidth ∧
        (rtGpuComplete s inp.completeCount).windowHeight = s.windowHeight ∧
        (rtGpuComplete s inp.completeCount).framebufferResized = s.framebufferResized :=
      ⟨rfl, rfl, rfl⟩
    have hmain : (rt_draw_frame s f inp).2.1.base.fenceResets = [] ∧
        (rt_draw_frame s f inp).1.fenceSignaled f = true := by
      simp only [rt_draw_frame, if_neg hwne]
      by_cases htop : (rtGpuComplete s inp.completeCount).windowWidth = 0 ∨
          (rtGpuComplete s inp.completeCount).windowHeight = 0 ∨
          (rtGpuComplete s inp.completeCount).framebufferResized = true
      · have hinner : ¬(inp.framebufferSize.1 = 0 ∨ inp.framebufferSize.2 = 0) := by
          intro hcon
          exact hskip ⟨by rw [← hwin.1, ← hwin.2.1, ← hwin.2.2]; exact htop, hcon⟩
        simp only [if_pos htop, if_neg hinner]
        simp only [rt_acquire_and_render, if_pos hacq]
        constructor
        · simp [FrameOutput.none]
        · simp [rt_recreate_vk_swap_chain_sync, hw]
      · simp only [if_neg htop]
        simp only [rt_acquire_and_render, if_pos hacq]
        constructor
        · simp [FrameOutput.none]
        · simp [rt_recreate_vk_swap_chain_sync, hw]
    exact ⟨hmain.1, hmain.2, fun inp2 => rt_draw_frame_not_blocked hmain.2 inp2⟩

/-- Witness for C10: a concrete out-of-date frame on the fresh
rasterization state leaves slot 0's fence signaled and resets nothing. -/
theorem claim_C10_witness :
    (draw_frame (init_render_state (fun _ => 0)) 0
        { completeCount := 0, acquireResult := .errorOutOfDateKhr, imageIndex := 0,
          uboValue := 1, presentResult := .success }).2.1.fenceResets = [] ∧
    (draw_frame (init_render_state (fun _ => 0)) 0
        { completeCount := 0, acquireResult := .errorOutOfDateKhr, imageIndex := 0,
          uboValue := 1, presentResult := .success }).1.fenceSignaled 0 = true :=
  have h := claim_C10_out_of_date_leaves_slot_reusable.1 (init_render_state (fun _ => 0)) 0
    { completeCount := 0, acquireResult := .errorOutOfDateKhr, imageIndex := 0,
      uboValue := 1, presentResult := .success } (by rfl) rfl
  ⟨h.1, h.2.1⟩

/-- Claim C5: in both variants, the per-frame uniform update writes only
the uniform buffer at the acquired image index — never at the frame-slot
index — and the command buffer submitted that frame is the one for the same
image index, so the uniform write of an image index is consumed only by the
command buffer bound to that index within the same present cycle; all
other image indices' uniform buffers are untouched by the frame. -/
theorem claim_C5_uniform_update_isolated_per_image :
    (∀ (mem : Nat → Nat) (img ubo : Nat),
      update_vk_uniform_buffer mem img ubo img = ubo ∧
      ∀ j, j ≠ img → update_vk_uniform_buffer mem img ubo j = mem j)
  ∧ (∀ (s : RenderState) (f : Nat) (inp : FrameInput),
      (gpuComplete s inp.completeCount).fenceSignaled f = true →
      (inp.acquireResult = .success ∨ inp.acquireResult = .suboptimalKhr) →
      (draw_frame s f inp).2.1.uniformWriteIndex = some inp.imageIndex ∧
      (draw_frame s f inp).2.1.submittedCommandBuffer = some inp.imageIndex ∧
      ∀ j, j ≠ inp.imageIndex →
        (draw_frame s f inp).1.uniformBuffers j = s.uniformBuffers j)
  ∧ (∀ (s : RtState) (f : Nat) (inp : RtFrameInput),
      (rtGpuComplete s inp.completeCount).fenceSignaled f = true →
      ¬rtSkipsFrame s inp →
      (inp.acquireResult = .success ∨ inp.acquireResult = .suboptimalKhr) →
      (rt_draw_frame s f inp).2.1.base.uniformWriteIndex = some inp.imageIndex ∧
      (rt_draw_frame s f inp).2.1.base.submittedCommandBuffer = some inp.imageIndex ∧
      ∀ j, j ≠ inp.imageIndex →
        (rt_draw_frame s f inp).1.uniformBuffers j = s.uniformBuffers j) := by
  refine ⟨?_, ?_, ?_⟩
  · intro mem img ubo
    refine ⟨by simp [update_vk_uniform_buffer], ?_⟩
    intro j hj
    simp [update_vk_uniform_buffer, Function.update_noteq hj]
  · intro s f inp hw hacq
    have hwne : ¬(gpuComplete s inp.completeCount).fenceSignaled f = false := by
      rw [hw]; simp
    have h1 : inp.acquireResult ≠ VkResult.errorOutOfDateKhr := by
      rcases hacq with h | h <;> rw [h] <;> decide
    have h2 : inp.acquireResult ≠ VkResult.errorOther := by
      rcases hacq with h | h <;> rw [h] <;> decide
    refine ⟨?_, ?_, ?_⟩
    · simp only [draw_frame, if_neg hwne, if_neg h1, if_neg h2]
      split
      · simp
      · split <;> simp
    · simp only [draw_frame, if_neg hwne, if_neg h1, if_neg h2]
      split
      · simp
      · split <;> simp
    · intro j hj
      simp only [draw_frame, if_neg hwne, if_neg h1, if_neg h2]
      split
      · simp [recreate_vk_swap_chain_sync, deviceWaitIdle, gpuComplete,
          update_vk_uniform_buffer, Function.update_noteq hj]
      · split <;>
          simp [gpuComplete, update_vk_uniform_buffer, Function.update_noteq hj]
  · intro s f inp hw hskip hacq
    have hwne : ¬(rtGpuComplete s inp.completeCount).fenceSignaled f = false := by
      rw [hw]; simp
    have h1 : inp.acquireResult ≠ VkResult.errorOutOfDateKhr := by
      rcases hacq with h | h <;> rw [h] <;> decide
    have h2 : inp.acquireResult ≠ VkResult.errorOther := by
      rcases hacq with h | h <;> rw [h] <;> decide
    have hwin : (rtGpuComplete s inp.completeCount).windowWidth = s.windowWidth ∧
        (rtGpuComplete s inp.completeCount).windowHeight = s.windowHeight ∧
        (rtGpuComplete s inp.completeCount).framebufferResized = s.framebufferResized :=
      ⟨rfl, rfl, rfl⟩
    have hbody : ∀ (s' : RtState) (b : Bool), s'.uniformBuffers = s.uniformBuffers →
        (rt_acquire_and_render s' b f inp).2.1.base.uniformWriteIndex =
          some inp.imageIndex ∧
        (rt_acquire_and_render s' b f inp).2.1.base.submittedCommandBuffer =
          some inp.imageIndex ∧
        ∀ j, j ≠ inp.imageIndex →
          (rt_acquire_and_render s' b f inp).1.uniformBuffers j = s.uniformBuffers j := by
      intro s' b hu
      refine ⟨?_, ?_, ?_⟩
      · simp only [rt_acquire_and_render, if_neg h1, if_neg h2]
        split
        · simp
        · split <;> simp
      · simp only [rt_acquire_and_render, if_neg h1, if_neg h2]
        split
        · simp
        · split <;> simp
      · intro j hj
        simp only [rt_acquire_and_render, if_neg h1, if_neg h2]
        split
        · simp [rt_recreate_vk_swap_chain_sync, rt_record_command_buffer,
            update_vk_rt_render_target, CurrentRenderingMode,
            update_vk_uniform_buffer, Function.update_noteq hj, hu]
        · split <;>
            simp [rt_recreate_vk_swap_chain_sync, rt_record_command_buffer,
              update_vk_rt_render_target, CurrentRenderingMode,
              update_vk_uniform_buffer, Function.update_noteq hj, hu]
    simp only [rt_draw_frame, if_neg hwne]
    by_cases htop : (rtGpuComplete s inp.completeCount).windowWidth = 0 ∨
        (rtGpuComplete s inp.completeCount).windowHeight = 0 ∨
        (rtGpuComplete s inp.completeCount).framebufferResized = true
    · have hinner : ¬(inp.framebufferSize.1 = 0 ∨ inp.framebufferSize.2 = 0) := by
        intro hcon
        exact hskip ⟨by rw [← hwin.1, ← hwin.2.1, ← hwin.2.2]; exact htop, hcon⟩
      simp only [if_pos htop, if_neg hinner]
      exact hbody _ _ rfl
    · simp only [if_neg htop]
      exact hbody _ _ rfl

/-- Witness for C5: a concrete successful frame on the rasterization
variant writes and submits image index 1 while slot 0 is current. -/
theorem claim_C5_witness :
    (draw_frame (init_render_state (fun _ => 7)) 0
        { completeCount := 0, acquireResult := .success, imageIndex := 1,
          uboValue := 42, presentResult := .success }).2.1.uniformWriteIndex = some 1 ∧
    (draw_frame (init_render_state (fun _ => 7)) 0
        { completeCount := 0, acquireResult := .success, imageIndex := 1,
          uboValue := 42, presentResult := .success }).1.uniformBuffers 0 = 7 :=
  have h := claim_C5_uniform_update_isolated_per_image.2.1
    (init_render_state (fun _ => 7)) 0
    { completeCount := 0, acquireResult := .success, imageIndex := 1,
      uboValue := 42, presentResult := .success } (by rfl) (Or.inl rfl)
  ⟨h.1, h.2.2 0 (by decide)⟩

/-- Claim C6: in ray-tracing mode, every recorded frame first records the
layout transition of the acquired swapchain image from present-source to
general, and rebinds the descriptor set's output-image binding (binding 1)
to the swapchain image view of the just-acquired image index before the
trace-rays command is recorded: whatever the binding held from earlier
frames, the binding in effect at the trace-rays command is the view of the
current image index. -/
theorem claim_C6_render_target_rebound_before_trace :
    (∀ (s : RtState) (img : Nat),
      (rt_record_command_buffer s img).2.head? =
        some (.imageBarrier img .presentSrcKhr .general) ∧
      (rt_record_command_buffer s img).1.rtOutputBinding =
        some (s.swapChainImageViews img) ∧
      ∃ pre post, (rt_record_command_buffer s img).2 =
          pre ++ RtRecordEvent.traceRays (some (s.swapChainImageViews img)) :: post ∧
        RtRecordEvent.bindRenderTarget (s.swapChainImageViews img) ∈ pre ∧
        RtRecordEvent.imageBarrier img .presentSrcKhr .general ∈ pre)
  ∧ (∀ (s : RtState) (f : Nat) (inp : RtFrameInput),
      (rtGpuComplete s inp.completeCount).fenceSignaled f = true →
      s.windowWidth ≠ 0 → s.windowHeight ≠ 0 → s.framebufferResized = false →
      (inp.acquireResult = .success ∨ inp.acquireResult = .suboptimalKhr) →
      (rt_draw_frame s f inp).2.1.recordedEvents.head? =
        some (.imageBarrier inp.imageIndex .presentSrcKhr .general) ∧
      ∃ pre post, (rt_draw_frame s f inp).2.1.recordedEvents =
          pre ++ RtRecordEvent.traceRays
            (some (s.swapChainImageViews inp.imageIndex)) :: post ∧
        RtRecordEvent.bindRenderTarget (s.swapChainImageViews inp.imageIndex) ∈ pre) := by
  constructor
  · intro s img
    refine ⟨rfl, rfl, ?_⟩
    refine ⟨[ .imageBarrier img .presentSrcKhr .general
            , .bindRenderTarget (s.swapChainImageViews img)
            , .beginRenderPass img
            , .bindPipeline
            , .bindDescriptorSets ], [.endRenderPass], ?_, by simp, by simp⟩
    simp [rt_record_command_buffer, update_vk_rt_render_target]
  · intro s f inp hw hww hwh hfr hacq
    have hwne : ¬(rtGpuComplete s inp.completeCount).fenceSignaled f = false := by
      rw [hw]; simp
    have h1 : inp.acquireResult ≠ VkResult.errorOutOfDateKhr := by
      rcases hacq with h | h <;> rw [h] <;> decide
    have h2 : inp.acquireResult ≠ VkResult.errorOther := by
      rcases hacq with h | h <;> rw [h] <;> decide
    have htop : ¬((rtGpuComplete s inp.completeCount).windowWidth = 0 ∨
        (rtGpuComplete s inp.completeCount).windowHeight = 0 ∨
        (rtGpuComplete s inp.completeCount).framebufferResized = true) := by
      intro hcon
      rcases hcon with h | h | h
      · exact hww h
      · exact hwh h
      · rw [show (rtGpuComplete s inp.completeCount).framebufferResized =
            s.framebufferResized from rfl, hfr] at h
        cases h
    have hevs : (rt_draw_frame s f inp).2.1.recordedEvents =
        [ .imageBarrier inp.imageIndex .presentSrcKhr .general
        , .bindRenderTarget (s.swapChainImageViews inp.imageIndex)
        , .beginRenderPass inp.imageIndex
        , .bindPipeline
        , .bindDescriptorSets
        , .traceRays (some (s.swapChainImageViews inp.imageIndex))
        , .endRenderPass ] := by
      have hviews : (rtGpuComplete s inp.completeCount).swapChainImageViews =
          s.swapChainImageViews := rfl
      simp only [rt_draw_frame, if_neg hwne, if_neg htop]
      simp only [rt_acquire_and_render, if_neg h1, if_neg h2]
      split
      · simp [rt_record_command_buffer, update_vk_rt_render_target,
          CurrentRenderingMode, hviews]
      · split <;>
          simp [rt_record_command_buffer, update_vk_rt_render_target,
            CurrentRenderingMode, hviews]
    refine ⟨by rw [hevs]; rfl, ?_⟩
    refine ⟨[ .imageBarrier inp.imageIndex .presentSrcKhr .general
            , .bindRenderTarget (s.swapChainImageViews inp.imageIndex)
            , .beginRenderPass inp.imageIndex
            , .bindPipeline
            , .bindDescriptorSets ], [.endRenderPass], ?_, by simp⟩
    rw [hevs]
    rfl

/-- Witness for C6 at a concrete state whose stale binding referenced
another image's view: recording for image 1 rebinds to view 101 and traces
with it. -/
theorem claim_C6_witness :
    (rt_record_command_buffer
        { fenceSignaled := fun _ => true, outstanding := [], windowWidth := 800,
          windowHeight := 600, framebufferResized := false,
          swapChainImageViews := fun i => 100 + i, rtOutputBinding := some 100,
          uniformBuffers := fun _ => 0 } 1).1.rtOutputBinding = some 101 :=
  (claim_C6_render_target_rebound_before_trace.1
      { fenceSignaled := fun _ => true, outstanding := [], windowWidth := 800,
        windowHeight := 600, framebufferResized := false,
        swapChainImageViews := fun i => 100 + i, rtOutputBinding := some 100,
        uniformBuffers := fun _ => 0 } 1).2.1

end VulkanTutorial
